import Mathlib

/-
Shallow embedding of the repository's audio engine.

The repository contains three variants of the engine; the authoritative one
for the specification is the `Audio` namespace (the pooled, deferred-style
engine with `ClipState`, `CreateClip`, `DestroySample`, `Pause`, loop counts
and playback position).  The older `Juke` variant (heap-allocated clip slots,
`Stop`/`IsPlaying`/`Clip`, per-frame clamping in its callback) is embedded as
well, because several claims cite its functions.

Conventions of the embedding:
- C++ `float` amplitudes, volumes and pans are modelled as exact rationals
  (`ℚ`); the claims under study are algebraic (clamping, exact pan gains,
  exact zero contributions) and are stated in exact arithmetic.
- Raw pointers into the pools (`SampleData*`) are modelled as pool indices
  (`Option Nat`, `none` = null), which preserves the aliasing between a clip
  and the pool slot it points into.
- `std::queue` free lists are modelled as lists with the front at the head;
  `push` appends at the tail.
- Unsigned 32-bit wrap-around is made explicit where the source relies on it
  (`loopCount != -1` compares against 4294967295; `clipsInFlight--` wraps).
- Out-of-range reads of the source (undefined behaviour in C++) are given the
  harmless total default of the corresponding `getD`; no claim proved below
  depends on such a read except where explicitly discussed.
-/

/-- Generic left-to-right accumulating map: threads an accumulator through a
list while producing one output element per input element.  Used to model the
render callback's nested loops (clip state threaded through the frames of one
buffer; the output buffer threaded through the set of clips). -/
def mapAccumL {σ α β : Type} (f : σ → α → σ × β) : σ → List α → σ × List β
  | s, [] => (s, [])
  | s, a :: as =>
    let p := f s a
    let q := mapAccumL f p.1 as
    (q.1, p.2 :: q.2)

/-- The hard limiter of `Juke::paCallback`
(`x > 1.0f ? x = 1.0f : x < -1.0f ? x = -1.0f : x`). -/
def clampQ (x : ℚ) : ℚ := if x > 1 then 1 else if x < -1 then -1 else x

namespace Audio

/-- `Audio::SampleData`: a pooled decoded PCM buffer.  `data = none` models a
null `float*`. -/
structure SampleData where
  data : Option (List ℚ)
  length : Nat
  mono : Bool
deriving DecidableEq

instance : Inhabited SampleData := ⟨⟨none, 0, false⟩⟩

/-- `Audio::ClipState`. -/
inductive ClipState where
  | Playing
  | Paused
  | Complete
deriving DecidableEq

instance : Inhabited ClipState := ⟨ClipState.Paused⟩

/-- `Audio::ClipData`: a pooled playback cursor.  `sampleRef` models the raw
`SampleData*` pointer as an index into the sample pool (`none` = null).
`loopCount` is the C++ `unsigned int`; 4294967295 is the loop-forever
sentinel (`loopCount != -1`). -/
structure ClipData where
  sampleRef : Option Nat
  state : ClipState
  sampleIndex : Nat
  volume : ℚ
  pan : ℚ
  loopCount : Nat
deriving DecidableEq

instance : Inhabited ClipData := ⟨⟨none, ClipState.Paused, 0, 1, 0, 0⟩⟩

/-- The sample-pool slot a clip's `sample` pointer refers to (callers below
only use it when `sampleRef` is known non-null). -/
def derefSample (pool : List SampleData) (c : ClipData) : SampleData :=
  (c.sampleRef.map (fun i => pool.getD i default)).getD default

/-- `Audio::SampleData::Reset`: frees the buffer (sets the pointer to null)
and zeroes the metadata, in place, synchronously. -/
def SampleData.Reset (_sd : SampleData) : SampleData := ⟨none, 0, false⟩

/-- `Audio::ClipData::Reset`: detaches the sample and restores default
fields. -/
def ClipData.Reset (_c : ClipData) : ClipData := ⟨none, ClipState.Paused, 0, 1, 0, 0⟩

/-- `Audio::ClipData::IncrementSampleIndex`. -/
def ClipData.IncrementSampleIndex (pool : List SampleData) (c : ClipData) : ClipData :=
  match c.sampleRef with
  | none => c
  | some _ =>
    let len := (derefSample pool c).length
    let idx := c.sampleIndex + 1
    if idx ≥ len then
      if c.loopCount = 0 then { c with sampleIndex := idx, state := ClipState.Complete }
      else if c.loopCount = 4294967295 then { c with sampleIndex := 0 }
      else { c with sampleIndex := 0, loopCount := c.loopCount - 1 }
    else { c with sampleIndex := idx }

/-- `Audio::ClipData::Next`: 0 when unbound, paused or complete; otherwise
reads one amplitude, advances the index, and scales by volume. -/
def ClipData.Next (pool : List SampleData) (c : ClipData) : ℚ × ClipData :=
  if c.sampleRef = none ∨ c.state = ClipState.Paused ∨ c.state = ClipState.Complete then
    (0, c)
  else
    let sd := derefSample pool c
    let v := (sd.data.getD []).getD c.sampleIndex 0
    (v * c.volume, ClipData.IncrementSampleIndex pool c)

/-- `Audio::ClipData::NextStereo`: mono sources are duplicated to both
channels with no pan applied; stereo sources get `(1 - pan)` / `(1 + pan)`
factors (and no 0.707 normalisation). -/
def ClipData.NextStereo (pool : List SampleData) (c : ClipData) : (ℚ × ℚ) × ClipData :=
  match c.sampleRef with
  | none => ((0, 0), c)
  | some _ =>
    if (derefSample pool c).mono then
      let p := ClipData.Next pool c
      ((p.1, p.1), p.2)
    else
      let p := ClipData.Next pool c
      let q := ClipData.Next pool p.2
      ((p.1 * (1 - c.pan), q.1 * (1 + c.pan)), q.2)

/-- `Audio::GlobalData`: pools, free lists and error state (the PortAudio
stream handles are outside the model). -/
structure AudioState where
  availableSampleIds : List Nat
  availableClipIds : List Nat
  sampleData : List SampleData
  clipData : List ClipData
  errorString : String
deriving DecidableEq

/-- `Audio::DestroySample`: rejects handle 0; otherwise resets the slot in
place (freeing the buffer synchronously) and immediately pushes the handle
back to the free list.  No bound clip is stopped and nothing is deferred. -/
def DestroySample (s : AudioState) (sample : Nat) : AudioState :=
  if sample = 0 then
    { s with errorString := "Error destroying sample: Invalid sample." }
  else
    { s with
      sampleData := s.sampleData.set sample ((s.sampleData.getD sample default).Reset),
      availableSampleIds := s.availableSampleIds ++ [sample] }

/-- `Audio::CreateClip`: rejects handle 0 and clip-pool exhaustion; otherwise
pops a clip id, resets the slot and binds it to the sample slot `sample`
without checking whether that slot holds a loaded sample. -/
def CreateClip (s : AudioState) (sample : Nat) : Nat × AudioState :=
  if sample = 0 then
    (0, { s with errorString := "Error creating clip: Invalid sample." })
  else
    match s.availableClipIds with
    | [] => (0, { s with errorString := "Error creating clip: No available clip IDs." })
    | clipId :: rest =>
      (clipId,
        { s with
          availableClipIds := rest,
          clipData := s.clipData.set clipId
            { (s.clipData.getD clipId default).Reset with sampleRef := some sample } })

/-- `Audio::DestroyClip`: rejects handle 0; otherwise resets the slot and
immediately pushes the handle back to the free list. -/
def DestroyClip (s : AudioState) (clip : Nat) : AudioState :=
  if clip = 0 then s
  else
    { s with
      clipData := s.clipData.set clip ((s.clipData.getD clip default).Reset),
      availableClipIds := s.availableClipIds ++ [clip] }

/-- `Audio::Play`: rejects handle 0; otherwise unconditionally sets the
slot's state to Playing (no other field is touched). -/
def Play (s : AudioState) (clip : Nat) : AudioState :=
  if clip = 0 then s
  else
    { s with
      clipData := s.clipData.set clip
        { s.clipData.getD clip default with state := ClipState.Playing } }

/-- `Audio::Pause`. -/
def Pause (s : AudioState) (clip : Nat) : AudioState :=
  if clip = 0 then s
  else
    { s with
      clipData := s.clipData.set clip
        { s.clipData.getD clip default with state := ClipState.Paused } }

/-- `Audio::PlaySample`: `CreateClip` then `Play`. -/
def PlaySample (s : AudioState) (sample : Nat) : Nat × AudioState :=
  if sample = 0 then
    (0, { s with errorString := "Error playing sample: Invalid sample." })
  else
    let p := CreateClip s sample
    if p.1 = 0 then
      (0, { p.2 with errorString := "Error playing sample: " ++ p.2.errorString })
    else
      (p.1, Play p.2 p.1)

/-- `Audio::GetClipVolume`. -/
def GetClipVolume (s : AudioState) (clip : Nat) : ℚ :=
  if clip = 0 then 0 else (s.clipData.getD clip default).volume

/-- `Audio::GetClipPan`. -/
def GetClipPan (s : AudioState) (clip : Nat) : ℚ :=
  if clip = 0 then 0 else (s.clipData.getD clip default).pan

/-- `Audio::GetClipLoop` (the unsigned loop count returned through `int`). -/
def GetClipLoop (s : AudioState) (clip : Nat) : Nat :=
  if clip = 0 then 0 else (s.clipData.getD clip default).loopCount

/-- `Audio::GetClipPosition` (`sampleIndex / sample->length`; division by a
zero length is the `ℚ` convention `x / 0 = 0`, where C++ floats would give
infinity — no claim below evaluates that corner). -/
def GetClipPosition (s : AudioState) (clip : Nat) : ℚ :=
  if clip = 0 then 0
  else
    let c := s.clipData.getD clip default
    match c.sampleRef with
    | none => 0
    | some sid => (c.sampleIndex : ℚ) / ((s.sampleData.getD sid default).length : ℚ)

/-- `Audio::SetClipVolume`. -/
def SetClipVolume (s : AudioState) (clip : Nat) (volume : ℚ) : AudioState :=
  if clip = 0 then s
  else
    { s with
      clipData := s.clipData.set clip
        { s.clipData.getD clip default with volume := volume } }

/-- `Audio::SetClipPan`. -/
def SetClipPan (s : AudioState) (clip : Nat) (pan : ℚ) : AudioState :=
  if clip = 0 then s
  else
    { s with
      clipData := s.clipData.set clip
        { s.clipData.getD clip default with pan := pan } }

/-- `Audio::SetClipLoop`: the `int` argument is stored into the `unsigned`
loop count, wrapping modulo 2^32 (so -1 installs the loop-forever
sentinel). -/
def SetClipLoop (s : AudioState) (clip : Nat) (count : Int) : AudioState :=
  if clip = 0 then s
  else
    { s with
      clipData := s.clipData.set clip
        { s.clipData.getD clip default with
          loopCount := (count.emod 4294967296).toNat } }

/-- `static_cast<int>` truncation toward zero of a real position. -/
def truncQ (q : ℚ) : Int := if 0 ≤ q then ⌊q⌋ else -⌊-q⌋

/-- `Audio::SetClipPosition`: scales the normalized position by the sample
length, truncates to `int`, and stores it into the unsigned cursor (modulo
2^32 for negative values, as the C++ conversion does). -/
def SetClipPosition (s : AudioState) (clip : Nat) (position : ℚ) : AudioState :=
  if clip = 0 then s
  else
    let c := s.clipData.getD clip default
    match c.sampleRef with
    | none => s
    | some sid =>
      { s with
        clipData := s.clipData.set clip
          { c with
            sampleIndex :=
              ((truncQ (position * ((s.sampleData.getD sid default).length : ℚ))).emod
                4294967296).toNat } }

/-- `Audio::IsClipPlaying`. -/
def IsClipPlaying (s : AudioState) (clip : Nat) : Bool :=
  if clip = 0 then false
  else decide ((s.clipData.getD clip default).state = ClipState.Playing)

/-- `Audio::GetPlayingClipCount`. -/
def GetPlayingClipCount (s : AudioState) : Nat :=
  s.clipData.countP (fun c => decide (c.state = ClipState.Playing))

/-- One Playing clip mixed over one buffer: threads the clip through the
frames, adding its stereo contribution to each cell.  `Audio`'s callback
performs no clamping. -/
def renderAClip (pool : List SampleData) (c : ClipData) (buf : List (ℚ × ℚ)) :
    ClipData × List (ℚ × ℚ) :=
  mapAccumL
    (fun c cell =>
      let r := ClipData.NextStereo pool c
      (r.2, (cell.1 + r.1.1, cell.2 + r.1.2)))
    c buf

/-- `Audio::PortAudioCallback`: zero-fills `framesPerBuffer` stereo frames,
then accumulates every Playing clip of the pool into the buffer.  Returns the
produced buffer and the post-callback state. -/
def PortAudioCallback (s : AudioState) (framesPerBuffer : Nat) :
    List (ℚ × ℚ) × AudioState :=
  let z : List (ℚ × ℚ) := List.replicate framesPerBuffer (0, 0)
  let r := mapAccumL
    (fun buf c =>
      if c.state = ClipState.Playing then
        let p := renderAClip s.sampleData c buf
        (p.2, p.1)
      else (buf, c))
    z s.clipData
  (r.1, { s with clipData := r.2 })

/-- Per-frame advance of one clip as performed by the render callback
(`NextStereo`, discarding the emitted frame). -/
def stepClip (pool : List SampleData) (c : ClipData) : ClipData :=
  (ClipData.NextStereo pool c).2

/-- `n` rendered frames' worth of advance of one clip. -/
def stepClipN (pool : List SampleData) : Nat → ClipData → ClipData
  | 0, c => c
  | n + 1, c => stepClipN pool n (stepClip pool c)

/-- A clip literal bound to sample slot `sid`: cursor `i`, loop counter `l`,
state `st`. -/
def mkClip (sid : Nat) (v p : ℚ) (i l : Nat) (st : ClipState) : ClipData :=
  ⟨some sid, st, i, v, p, l⟩

end Audio

namespace Juke

/-- `Juke::AudioSampleData` (`stereo` defaults to true in the source). -/
structure AudioSampleData where
  data : List ℚ
  size : Nat
  stereo : Bool
deriving DecidableEq

/-- `Juke::AudioClipData`; `sample` models the `AudioSampleData*` pointer as
an index into `loadedSamples` (`none` = null). -/
structure AudioClipData where
  sample : Option Nat
  position : Nat
  loop : Bool
  volume : ℚ
  pan : ℚ
  paused : Bool
  complete : Bool
deriving DecidableEq

/-- Dereference a clip's sample pointer (the source never null-checks it in
the callback; a dangling/null pointer is modelled by the default-initialised
`AudioSampleData`, matching the struct's default members). -/
def derefSample (samples : List (Option AudioSampleData)) (c : AudioClipData) :
    AudioSampleData :=
  (c.sample.bind (fun i => samples.getD i none)).getD ⟨[], 0, true⟩

/-- `Juke::AudioClipData::Next`: note the strict `position > sample->size`
end test of the source, and that the loop branch re-reads index 0 after
wrapping. -/
def AudioClipData.Next (samples : List (Option AudioSampleData)) (c : AudioClipData) :
    ℚ × AudioClipData :=
  let sd := derefSample samples c
  if c.position > sd.size then
    if c.loop then
      ((sd.data.getD 0 0) * c.volume, { c with position := 1 })
    else
      (0, { c with complete := true })
  else
    ((sd.data.getD c.position 0) * c.volume, { c with position := c.position + 1 })

/-- One frame of one clip in `Juke::paCallback`: fetch left/right source
amplitudes (duplicating a mono source), accumulate them under the
constant-power pan law with the 0.707 factor, and hard-limit the cell. -/
def mixFrame (samples : List (Option AudioSampleData)) (c : AudioClipData)
    (cell : ℚ × ℚ) : AudioClipData × (ℚ × ℚ) :=
  let t : ℚ × ℚ × AudioClipData :=
    if (derefSample samples c).stereo then
      let p := AudioClipData.Next samples c
      let q := AudioClipData.Next samples p.2
      (p.1, q.1, q.2)
    else
      let p := AudioClipData.Next samples c
      (p.1, p.1, p.2)
  (t.2.2,
    (clampQ (cell.1 + t.1 * (1 - c.pan) * (707 / 1000)),
     clampQ (cell.2 + t.2.1 * (1 + c.pan) * (707 / 1000))))

/-- One clip mixed across the whole buffer in `Juke::paCallback`. -/
def renderClip (samples : List (Option AudioSampleData)) (c : AudioClipData)
    (buf : List (ℚ × ℚ)) : AudioClipData × List (ℚ × ℚ) :=
  mapAccumL (mixFrame samples) c buf

/-- `Juke::paCallback`: zero-fill, then mix every non-null, non-paused clip
slot, clamping each touched cell. -/
def paCallback (samples : List (Option AudioSampleData))
    (clips : List (Option AudioClipData)) (framesPerBuffer : Nat) :
    List (ℚ × ℚ) × List (Option AudioClipData) :=
  let z : List (ℚ × ℚ) := List.replicate framesPerBuffer (0, 0)
  mapAccumL
    (fun buf oc =>
      match oc with
      | none => (buf, none)
      | some c =>
        if c.paused then (buf, some c)
        else
          let p := renderClip samples c buf
          (p.2, some p.1))
    z clips

/-- The `Juke` globals touched by the claims under study. -/
structure JukeState where
  availableSampleIds : List Nat
  availableClipsIds : List Nat
  loadedSamples : List (Option AudioSampleData)
  playingClips : List (Option AudioClipData)
  clipsToFree : List AudioClipData
  clipsInFlight : Nat
  error : String
deriving DecidableEq

/-- `Juke::Stop`: no-op on a null slot; otherwise moves the slot's data to
the deferred-free set, nulls the slot, and immediately pushes the clip id
back onto the free queue (`clipsInFlight--` wraps as an unsigned). -/
def Stop (s : JukeState) (clip : Nat) : JukeState :=
  match s.playingClips.getD clip none with
  | none => s
  | some cd =>
    { s with
      clipsToFree := s.clipsToFree ++ [cd],
      playingClips := s.playingClips.set clip none,
      availableClipsIds := s.availableClipsIds ++ [clip],
      clipsInFlight := if s.clipsInFlight = 0 then 4294967295 else s.clipsInFlight - 1 }

/-- `Juke::IsPlaying`. -/
def IsPlaying (s : JukeState) (clip : Nat) : Bool :=
  match s.playingClips.getD clip none with
  | none => false
  | some cd => !cd.complete && !cd.paused

/-- `Juke::Clip`: validates the sample handle and binding, then pops the
front of the clip-id queue (popping an empty queue is undefined behaviour in
the source, modelled as `none`). -/
def Clip (s : JukeState) (sample : Nat) : Option (Nat × JukeState) :=
  if sample = 0 then
    some (0, { s with error := "Error clipping sample: Invalid sample ID." })
  else
    match s.loadedSamples.getD sample none with
    | none =>
      some (0, { s with error := "Error clipping sample: Sample has not been loaded." })
    | some _ =>
      match s.availableClipsIds with
      | [] => none
      | clipId :: rest =>
        some (clipId,
          { s with
            availableClipsIds := rest,
            playingClips := s.playingClips.set clipId
              (some ⟨some sample, 0, false, 1, 0, true, false⟩) })


/-- `Juke::Play`: no-op on a null slot; otherwise clears the paused and
complete flags and resets the cursor to 0, so that the clip "will play from
the beginning" (a restart, not a resume); `clipsInFlight++` wraps as an
unsigned 32-bit counter. -/
def Play (s : JukeState) (clip : Nat) : JukeState :=
  match s.playingClips.getD clip none with
  | none => s
  | some cd =>
    { s with
      playingClips := s.playingClips.set clip
        (some { cd with paused := false, complete := false, position := 0 }),
      clipsInFlight := (s.clipsInFlight + 1) % 4294967296 }

end Juke

/- ------------------------------------------------------------------ -/
/- Concrete states used by counterexamples and witnesses.             -/
/- ------------------------------------------------------------------ -/

namespace Ex

/-- A state with sample slot 1 loaded (mono, one frame of amplitude 1) and
clip slot 1 bound to it and Playing. -/
def sBound : Audio.AudioState :=
  ⟨[], [], [default, ⟨some [1], 1, true⟩],
    [default, ⟨some 1, Audio.ClipState.Playing, 0, 1, 0, 0⟩], ""⟩

/-- Like `sBound` but the playing clip has volume 2. -/
def sLoud : Audio.AudioState :=
  ⟨[], [], [default, ⟨some [1], 1, true⟩],
    [default, ⟨some 1, Audio.ClipState.Playing, 0, 2, 0, 0⟩], ""⟩

/-- Like `sBound` but the playing clip is panned hard left (`pan = -1`). -/
def sPanned : Audio.AudioState :=
  ⟨[], [], [default, ⟨some [1], 1, true⟩],
    [default, ⟨some 1, Audio.ClipState.Playing, 0, 1, -1, 0⟩], ""⟩

/-- A state whose sample slot 1 is already free (reset) and whose sample
free list already contains handle 1. -/
def sFree : Audio.AudioState :=
  ⟨[1], [], [default, default], [default], ""⟩

/-- A state with two empty (unbound) sample slots and clip ids 1, 2 free. -/
def sUnbound : Audio.AudioState :=
  ⟨[], [1, 2], [default, default], [default, default, default], ""⟩

/-- A small neutral state for witnesses: two default clip slots. -/
def sPlain : Audio.AudioState :=
  ⟨[], [], [], [default, default], ""⟩

/-- A `Juke` state with sample 1 loaded, clip slot 1 playing it, and an
empty clip free list. -/
def jS : Juke.JukeState :=
  ⟨[], [], [none, some ⟨[1], 1, false⟩],
    [none, some ⟨some 1, 5, false, 1, 0, false, false⟩], [], 1, ""⟩


/-- A `Juke` state whose clip 1 is Paused mid-playback at cursor 5. -/
def jPaused : Juke.JukeState :=
  ⟨[], [], [none, some ⟨[1], 1, false⟩],
    [none, some ⟨some 1, 5, false, 1, 0, true, false⟩], [], 0, ""⟩

end Ex

/- ------------------------------------------------------------------ -/
/- Generic helper lemmas.                                             -/
/- ------------------------------------------------------------------ -/

theorem aux_getD_set_self {α : Type} (l : List α) (i : Nat) (x d : α)
    (h : i < l.length) : (l.set i x).getD i d = x := by
  induction l generalizing i with
  | nil => simp at h
  | cons a as ih =>
    cases i with
    | zero => rfl
    | succ n =>
      simp only [List.set, List.getD, List.get?]
      exact ih n (by simpa using h)

theorem aux_getD_of_le {α : Type} (l : List α) (i : Nat) (d : α)
    (h : l.length ≤ i) : l.getD i d = d := by
  induction l generalizing i with
  | nil => cases i <;> rfl
  | cons a as ih =>
    cases i with
    | zero => simp at h
    | succ n => exact ih n (by simpa using h)

theorem aux_getD_mem {α : Type} (l : List α) (i : Nat) (d : α)
    (h : i < l.length) : l.getD i d ∈ l := by
  induction l generalizing i with
  | nil => simp at h
  | cons a as ih =>
    cases i with
    | zero => exact List.mem_cons_self a as
    | succ n => exact List.mem_cons_of_mem a (ih n (by simpa using h))

theorem aux_countP_pos_of_getD {α : Type} (l : List α) (i : Nat) (d : α)
    (p : α → Bool) (h : i < l.length) (hp : p (l.getD i d) = true) :
    0 < l.countP p :=
  List.countP_pos_iff.mpr ⟨l.getD i d, aux_getD_mem l i d h, hp⟩

theorem aux_mapAccumL_snd_forall {σ α β : Type} (f : σ → α → σ × β)
    (P : β → Prop) (hf : ∀ s a, P (f s a).2) :
    ∀ (l : List α) (s : σ), ∀ b ∈ (mapAccumL f s l).2, P b := by
  intro l
  induction l with
  | nil => intro s b hb; simp [mapAccumL] at hb
  | cons a as ih =>
    intro s b hb
    simp only [mapAccumL] at hb
    rcases List.mem_cons.mp hb with h | h
    · exact h ▸ hf s a
    · exact ih (f s a).1 b h

theorem aux_mapAccumL_fst_inv {σ α β : Type} (f : σ → α → σ × β)
    (Q : σ → Prop) (hf : ∀ s a, Q s → Q (f s a).1) :
    ∀ (l : List α) (s : σ), Q s → Q (mapAccumL f s l).1 := by
  intro l
  induction l with
  | nil => intro s hs; exact hs
  | cons a as ih => intro s hs; exact ih (f s a).1 (hf s a hs)

theorem clampQ_bounds (x : ℚ) : -1 ≤ clampQ x ∧ clampQ x ≤ 1 := by
  unfold clampQ
  split_ifs <;> constructor <;> linarith

/- ------------------------------------------------------------------ -/
/- C1                                                                 -/
/- ------------------------------------------------------------------ -/

/-- C1, counterexample.  The claim says `DestroySample` on a valid handle
first force-stops every clip bound to the sample and never frees the buffer
synchronously.  In `Ex.sBound`, clip 1 is Playing and bound to sample 1; the
source's `DestroySample` nevertheless frees slot 1's buffer in place
(`data` becomes null), leaves clip 1 bound and Playing (it is not stopped),
and immediately pushes handle 1 onto the sample free list. -/
theorem destroySample_frees_buffer_while_referenced :
    ((Audio.DestroySample Ex.sBound 1).sampleData.getD 1 default).data = none ∧
    (Audio.DestroySample Ex.sBound 1).clipData = Ex.sBound.clipData ∧
    ((Audio.DestroySample Ex.sBound 1).clipData.getD 1 default).sampleRef = some 1 ∧
    ((Audio.DestroySample Ex.sBound 1).clipData.getD 1 default).state
      = Audio.ClipState.Playing ∧
    (Audio.DestroySample Ex.sBound 1).availableSampleIds = [1] := by
  decide

/-- C1, amended: `Audio::DestroySample` on any nonzero handle synchronously
resets the sample slot in place (freeing its PCM buffer immediately), leaves
every clip slot untouched (no clip is force-stopped or detached), and pushes
the handle straight back onto the sample free list — there is no deferred
reclamation for samples. -/
theorem destroySample_synchronous_reclaim (s : Audio.AudioState) (h : Nat)
    (hne : h ≠ 0) :
    Audio.DestroySample s h =
      { s with
        sampleData := s.sampleData.set h ⟨none, 0, false⟩,
        availableSampleIds := s.availableSampleIds ++ [h] } := by
  simp only [Audio.DestroySample, Audio.SampleData.Reset, if_neg hne]

/-- Witness for `destroySample_synchronous_reclaim` at `Ex.sBound`, handle 1. -/
theorem destroySample_synchronous_reclaim_witness :
    Audio.DestroySample Ex.sBound 1 =
      { Ex.sBound with
        sampleData := Ex.sBound.sampleData.set 1 ⟨none, 0, false⟩,
        availableSampleIds := Ex.sBound.availableSampleIds ++ [1] } :=
  destroySample_synchronous_reclaim Ex.sBound 1 (by decide)

/- ------------------------------------------------------------------ -/
/- C9                                                                 -/
/- ------------------------------------------------------------------ -/

/-- C9, counterexample.  The claim says `DestroySample` on an already-free
handle is a no-op and in particular pushes nothing onto the sample free
list.  In `Ex.sFree`, slot 1 is already free and handle 1 already sits on
the free list; `DestroySample 1` nevertheless pushes handle 1 again,
leaving it on the free list twice. -/
theorem destroySample_double_push_on_free_handle :
    Ex.sFree.availableSampleIds = [1] ∧
    (Ex.sFree.sampleData.getD 1 default).data = none ∧
    (Audio.DestroySample Ex.sFree 1).availableSampleIds = [1, 1] := by
  decide

/-- C9, amended: only handle 0 is rejected (a pool no-op that records an
error).  An in-range but already-free handle is not a no-op: the slot is
reset again and the handle is pushed onto the sample free list another
time.  (Out-of-range handles are indexed without any bounds check in the
source — undefined behaviour, not a rejection.) -/
theorem destroySample_pushes_even_when_free (s : Audio.AudioState) (h : Nat)
    (hne : h ≠ 0) (_hfree : s.sampleData.getD h default = ⟨none, 0, false⟩) :
    (Audio.DestroySample s h).availableSampleIds
      = s.availableSampleIds ++ [h] ∧
    (Audio.DestroySample s h).sampleData
      = s.sampleData.set h ⟨none, 0, false⟩ := by
  rw [destroySample_synchronous_reclaim s h hne]
  exact ⟨rfl, rfl⟩

/-- Witness for `destroySample_pushes_even_when_free` at `Ex.sFree`,
handle 1. -/
theorem destroySample_pushes_even_when_free_witness :
    (Audio.DestroySample Ex.sFree 1).availableSampleIds
      = Ex.sFree.availableSampleIds ++ [1] ∧
    (Audio.DestroySample Ex.sFree 1).sampleData
      = Ex.sFree.sampleData.set 1 ⟨none, 0, false⟩ :=
  destroySample_pushes_even_when_free Ex.sFree 1 (by decide) (by decide)

/- ------------------------------------------------------------------ -/
/- C7                                                                 -/
/- ------------------------------------------------------------------ -/

/-- C7, counterexample.  The claim says `CreateClip` fails and returns 0 on
a nonzero handle whose sample slot holds no loaded sample.  In
`Ex.sUnbound`, sample slot 1 is empty (`data = none`), yet `CreateClip 1`
pops clip id 1, allocates the clip, and binds it to the empty slot. -/
theorem createClip_accepts_unbound_sample :
    (Ex.sUnbound.sampleData.getD 1 default).data = none ∧
    (Audio.CreateClip Ex.sUnbound 1).1 = 1 ∧
    ((Audio.CreateClip Ex.sUnbound 1).2.clipData.getD 1 default).sampleRef
      = some 1 ∧
    (Audio.CreateClip Ex.sUnbound 1).2.availableClipIds = [2] := by
  decide

/-- C7, amended: `CreateClip` returns 0 without allocating only for handle 0
(or on clip-pool exhaustion).  For any nonzero sample handle — bound or not —
it pops the next free clip id, resets that clip slot and binds it to sample
slot `h`, returning the nonzero popped id.  (The source comments this
choice: the clip's sample pointer is set "even if the sample is
invalid".) -/
theorem createClip_zero_vs_nonzero (s : Audio.AudioState) (h cid : Nat)
    (rest : List Nat) (hne : h ≠ 0) (hq : s.availableClipIds = cid :: rest) :
    Audio.CreateClip s h =
      (cid,
        { s with
          availableClipIds := rest,
          clipData := s.clipData.set cid
            ⟨some h, Audio.ClipState.Paused, 0, 1, 0, 0⟩ }) ∧
    (Audio.CreateClip s 0).1 = 0 ∧
    (Audio.CreateClip s 0).2.clipData = s.clipData ∧
    (Audio.CreateClip s 0).2.availableClipIds = s.availableClipIds := by
  refine ⟨?_, by simp [Audio.CreateClip], by simp [Audio.CreateClip],
    by simp [Audio.CreateClip]⟩
  simp only [Audio.CreateClip, Audio.ClipData.Reset, if_neg hne, hq]

/-- Witness for `createClip_zero_vs_nonzero` at `Ex.sUnbound`, handle 1. -/
theorem createClip_zero_vs_nonzero_witness :
    Audio.CreateClip Ex.sUnbound 1 =
      (1,
        { Ex.sUnbound with
          availableClipIds := [2],
          clipData := Ex.sUnbound.clipData.set 1
            ⟨some 1, Audio.ClipState.Paused, 0, 1, 0, 0⟩ }) ∧
    (Audio.CreateClip Ex.sUnbound 0).1 = 0 ∧
    (Audio.CreateClip Ex.sUnbound 0).2.clipData = Ex.sUnbound.clipData ∧
    (Audio.CreateClip Ex.sUnbound 0).2.availableClipIds
      = Ex.sUnbound.availableClipIds :=
  createClip_zero_vs_nonzero Ex.sUnbound 1 1 [2] (by decide) (by decide)

/- ------------------------------------------------------------------ -/
/- C8                                                                 -/
/- ------------------------------------------------------------------ -/

/-- C8 (confirmed).  Every implemented handle-taking operation of the
`Audio` engine rejects handle 0 — in the sample handle space
(`DestroySample`, `PlaySample`, `CreateClip`) and in the clip handle space
(all others) independently.  Each fails through its sentinel return
(0 / false / no-op) and leaves both pools and both free lists untouched
(the mutators with a recorded error message touch only the error string;
the pure no-ops return the state unchanged). -/
theorem handle_zero_rejected_everywhere (s : Audio.AudioState) (v p q : ℚ)
    (n : Int) :
    (Audio.DestroySample s 0).sampleData = s.sampleData ∧
    (Audio.DestroySample s 0).clipData = s.clipData ∧
    (Audio.DestroySample s 0).availableSampleIds = s.availableSampleIds ∧
    (Audio.DestroySample s 0).availableClipIds = s.availableClipIds ∧
    (Audio.PlaySample s 0).1 = 0 ∧
    (Audio.PlaySample s 0).2.sampleData = s.sampleData ∧
    (Audio.PlaySample s 0).2.clipData = s.clipData ∧
    (Audio.PlaySample s 0).2.availableSampleIds = s.availableSampleIds ∧
    (Audio.PlaySample s 0).2.availableClipIds = s.availableClipIds ∧
    (Audio.CreateClip s 0).1 = 0 ∧
    (Audio.CreateClip s 0).2.sampleData = s.sampleData ∧
    (Audio.CreateClip s 0).2.clipData = s.clipData ∧
    (Audio.CreateClip s 0).2.availableSampleIds = s.availableSampleIds ∧
    (Audio.CreateClip s 0).2.availableClipIds = s.availableClipIds ∧
    Audio.DestroyClip s 0 = s ∧
    Audio.Play s 0 = s ∧
    Audio.Pause s 0 = s ∧
    Audio.GetClipVolume s 0 = 0 ∧
    Audio.GetClipPan s 0 = 0 ∧
    Audio.GetClipLoop s 0 = 0 ∧
    Audio.GetClipPosition s 0 = 0 ∧
    Audio.IsClipPlaying s 0 = false ∧
    Audio.SetClipVolume s 0 v = s ∧
    Audio.SetClipPan s 0 p = s ∧
    Audio.SetClipLoop s 0 n = s ∧
    Audio.SetClipPosition s 0 q = s := by
  simp [Audio.DestroySample, Audio.PlaySample, Audio.CreateClip,
    Audio.DestroyClip, Audio.Play, Audio.Pause, Audio.GetClipVolume,
    Audio.GetClipPan, Audio.GetClipLoop, Audio.GetClipPosition,
    Audio.IsClipPlaying, Audio.SetClipVolume, Audio.SetClipPan,
    Audio.SetClipLoop, Audio.SetClipPosition]

/- ------------------------------------------------------------------ -/
/- C6                                                                 -/
/- ------------------------------------------------------------------ -/

/-- C6, counterexample.  The claim says Play on a Paused clip resumes from
the current cursor without resetting it.  That is true of `Audio::Play`,
but the claim also covers `Juke::Play` (cited by its sources), which
restarts instead: in `Ex.jPaused`, clip 1 is Paused at cursor 5, and
`Juke::Play` clears the paused flag while resetting the cursor to 0. -/
theorem jukePlay_resets_cursor :
    Ex.jPaused.playingClips.getD 1 none
      = some ⟨some 1, 5, false, 1, 0, true, false⟩ ∧
    (Juke.Play Ex.jPaused 1).playingClips.getD 1 none
      = some ⟨some 1, 0, false, 1, 0, false, false⟩ := by
  decide

/-- C6, amended: in the `Audio` engine the claim holds exactly — `Play` on a
nonzero clip handle rewrites the slot with only its state set to Playing:
the cursor (`sampleIndex`), volume, pan, loop counter and sample binding are
exactly those the slot already had, so a Paused clip resumes from its
current cursor; `Pause` likewise changes only the state to Paused, and
neither touches any other slot, the sample pool, or the free lists.  In the
older `Juke` variant, `Play` instead restarts the clip (cursor reset to 0,
complete flag cleared). -/
theorem play_pause_touch_only_state (s : Audio.AudioState) (h : Nat)
    (hne : h ≠ 0) :
    Audio.Play s h =
      { s with
        clipData := s.clipData.set h
          { s.clipData.getD h default with state := Audio.ClipState.Playing } } ∧
    Audio.Pause s h =
      { s with
        clipData := s.clipData.set h
          { s.clipData.getD h default with state := Audio.ClipState.Paused } } := by
  constructor
  · simp only [Audio.Play, if_neg hne]
  · simp only [Audio.Pause, if_neg hne]

/-- Witness for `play_pause_touch_only_state` at `Ex.sBound`, handle 1. -/
theorem play_pause_touch_only_state_witness :
    Audio.Play Ex.sBound 1 =
      { Ex.sBound with
        clipData := Ex.sBound.clipData.set 1
          { Ex.sBound.clipData.getD 1 default with
            state := Audio.ClipState.Playing } } ∧
    Audio.Pause Ex.sBound 1 =
      { Ex.sBound with
        clipData := Ex.sBound.clipData.set 1
          { Ex.sBound.clipData.getD 1 default with
            state := Audio.ClipState.Paused } } :=
  play_pause_touch_only_state Ex.sBound 1 (by decide)

/- ------------------------------------------------------------------ -/
/- C2                                                                 -/
/- ------------------------------------------------------------------ -/

/-- C2, counterexample.  The claim says a stopped clip's handle is not
reusable by a new `CreateClip` until `Flush()` has been called.  In `Ex.jS`,
clip 1 is playing (non-Free).  `Stop 1` does make `IsPlaying 1` false
immediately, but it also pushes handle 1 straight onto the clip free queue,
and the very next `Juke::Clip` call — with no intervening `Flush` — returns
handle 1 again. -/
theorem stop_recycles_handle_without_flush :
    Juke.IsPlaying Ex.jS 1 = true ∧
    Juke.IsPlaying (Juke.Stop Ex.jS 1) 1 = false ∧
    (Juke.Stop Ex.jS 1).availableClipsIds = [1] ∧
    ((Juke.Clip (Juke.Stop Ex.jS 1) 1).map Prod.fst) = some 1 := by
  decide

/-- C2, amended: `Juke::Stop` on a non-Free clip slot immediately makes
`IsPlaying` false (the slot is nulled), but it also immediately pushes the
handle onto the FIFO clip free list — the handle is reusable by a
subsequent `CreateClip` as soon as it reaches the queue front, with no
`Flush` required (only the heap block of the old clip is deferred to the
`clipsToFree` set). -/
theorem stop_immediate_and_recycled (s : Juke.JukeState) (h : Nat)
    (cd : Juke.AudioClipData) (hcd : s.playingClips.getD h none = some cd) :
    Juke.IsPlaying (Juke.Stop s h) h = false ∧
    (Juke.Stop s h).availableClipsIds = s.availableClipsIds ++ [h] ∧
    (Juke.Stop s h).playingClips = s.playingClips.set h none ∧
    (Juke.Stop s h).clipsToFree = s.clipsToFree ++ [cd] := by
  have hlt : h < s.playingClips.length := by
    by_contra hge
    rw [aux_getD_of_le s.playingClips h none (by omega)] at hcd
    exact Option.noConfusion hcd
  unfold Juke.Stop
  rw [hcd]
  refine ⟨?_, rfl, rfl, rfl⟩
  unfold Juke.IsPlaying
  rw [aux_getD_set_self s.playingClips h none none hlt]

/-- Witness for `stop_immediate_and_recycled` at `Ex.jS`, handle 1. -/
theorem stop_immediate_and_recycled_witness :
    Juke.IsPlaying (Juke.Stop Ex.jS 1) 1 = false ∧
    (Juke.Stop Ex.jS 1).availableClipsIds = Ex.jS.availableClipsIds ++ [1] ∧
    (Juke.Stop Ex.jS 1).playingClips = Ex.jS.playingClips.set 1 none ∧
    (Juke.Stop Ex.jS 1).clipsToFree
      = Ex.jS.clipsToFree ++ [⟨some 1, 5, false, 1, 0, false, false⟩] :=
  stop_immediate_and_recycled Ex.jS 1 ⟨some 1, 5, false, 1, 0, false, false⟩
    (by decide)

/- ------------------------------------------------------------------ -/
/- Helpers about unbound clips and the Juke mixer.                    -/
/- ------------------------------------------------------------------ -/

theorem aux_nextStereo_unbound (pool : List Audio.SampleData)
    (c : Audio.ClipData) (hc : c.sampleRef = none) :
    Audio.ClipData.NextStereo pool c = ((0, 0), c) := by
  simp [Audio.ClipData.NextStereo, hc]

theorem aux_renderAClip_unbound (pool : List Audio.SampleData)
    (c : Audio.ClipData) (hc : c.sampleRef = none) :
    ∀ buf, Audio.renderAClip pool c buf = (c, buf) := by
  intro buf
  induction buf with
  | nil => rfl
  | cons b bs ih =>
    simp only [Audio.renderAClip, mapAccumL] at ih ⊢
    rw [aux_nextStereo_unbound pool c hc]
    simp_all

theorem aux_stepClip_unbound (pool : List Audio.SampleData)
    (c : Audio.ClipData) (hc : c.sampleRef = none) :
    Audio.stepClip pool c = c := by
  simp [Audio.stepClip, aux_nextStereo_unbound pool c hc]

theorem aux_stepClipN_unbound (pool : List Audio.SampleData)
    (c : Audio.ClipData) (hc : c.sampleRef = none) :
    ∀ n, Audio.stepClipN pool n c = c := by
  intro n
  induction n with
  | zero => rfl
  | succ n ih =>
    show Audio.stepClipN pool n (Audio.stepClip pool c) = c
    rw [aux_stepClip_unbound pool c hc]
    exact ih

theorem aux_mixFrame_clamped (samples : List (Option Juke.AudioSampleData))
    (c : Juke.AudioClipData) (cell : ℚ × ℚ) :
    -1 ≤ (Juke.mixFrame samples c cell).2.1 ∧
    (Juke.mixFrame samples c cell).2.1 ≤ 1 ∧
    -1 ≤ (Juke.mixFrame samples c cell).2.2 ∧
    (Juke.mixFrame samples c cell).2.2 ≤ 1 := by
  unfold Juke.mixFrame
  exact ⟨(clampQ_bounds _).1, (clampQ_bounds _).2,
    (clampQ_bounds _).1, (clampQ_bounds _).2⟩

theorem aux_renderClip_clamped (samples : List (Option Juke.AudioSampleData))
    (c : Juke.AudioClipData) (buf : List (ℚ × ℚ)) :
    ∀ pr ∈ (Juke.renderClip samples c buf).2,
      -1 ≤ pr.1 ∧ pr.1 ≤ 1 ∧ -1 ≤ pr.2 ∧ pr.2 ≤ 1 :=
  aux_mapAccumL_snd_forall (Juke.mixFrame samples)
    (fun pr => -1 ≤ pr.1 ∧ pr.1 ≤ 1 ∧ -1 ≤ pr.2 ∧ pr.2 ≤ 1)
    (fun s a => aux_mixFrame_clamped samples s a) buf c

/- ------------------------------------------------------------------ -/
/- C10                                                                -/
/- ------------------------------------------------------------------ -/

/-- C10 (confirmed).  `Audio::Play` on a nonzero in-range clip handle whose
slot is Free (its sample reference unbound — never issued by `CreateClip`,
or already reset by `DestroyClip`) still sets the slot to Playing.  The
slot is then counted by `GetPlayingClipCount`, the mixer adds exactly zero
to every frame it touches for that clip, and — having no bound sample — the
clip is never advanced (so never reaches Complete) no matter how many
frames are rendered. -/
theorem play_on_free_slot_counts_and_silent (s : Audio.AudioState) (h : Nat)
    (hne : h ≠ 0) (hlt : h < s.clipData.length)
    (hfree : (s.clipData.getD h default).sampleRef = none) :
    ((Audio.Play s h).clipData.getD h default).state
      = Audio.ClipState.Playing ∧
    ((Audio.Play s h).clipData.getD h default).sampleRef = none ∧
    0 < Audio.GetPlayingClipCount (Audio.Play s h) ∧
    (∀ buf, Audio.renderAClip (Audio.Play s h).sampleData
        ((Audio.Play s h).clipData.getD h default) buf
      = ((Audio.Play s h).clipData.getD h default, buf)) ∧
    (∀ n, Audio.stepClipN (Audio.Play s h).sampleData n
        ((Audio.Play s h).clipData.getD h default)
      = (Audio.Play s h).clipData.getD h default) := by
  have hplay : (Audio.Play s h).clipData =
      s.clipData.set h
        { s.clipData.getD h default with state := Audio.ClipState.Playing } := by
    simp only [Audio.Play, if_neg hne]
  have hc : (Audio.Play s h).clipData.getD h default =
      { s.clipData.getD h default with state := Audio.ClipState.Playing } := by
    rw [hplay]
    exact aux_getD_set_self s.clipData h _ default hlt
  have hcfree : ((Audio.Play s h).clipData.getD h default).sampleRef = none := by
    rw [hc]; exact hfree
  refine ⟨by rw [hc], hcfree, ?_, ?_, ?_⟩
  · unfold Audio.GetPlayingClipCount
    refine aux_countP_pos_of_getD _ h default _ ?_ ?_
    · rw [hplay]; simpa using hlt
    · rw [hc]; simp
  · exact aux_renderAClip_unbound _ _ hcfree
  · intro n; exact aux_stepClipN_unbound _ _ hcfree n

/-- Witness for `play_on_free_slot_counts_and_silent` at `Ex.sPlain`,
handle 1 (a default slot, never issued by `CreateClip`). -/
theorem play_on_free_slot_counts_and_silent_witness :
    ((Audio.Play Ex.sPlain 1).clipData.getD 1 default).state
      = Audio.ClipState.Playing ∧
    ((Audio.Play Ex.sPlain 1).clipData.getD 1 default).sampleRef = none ∧
    0 < Audio.GetPlayingClipCount (Audio.Play Ex.sPlain 1) ∧
    (∀ buf, Audio.renderAClip (Audio.Play Ex.sPlain 1).sampleData
        ((Audio.Play Ex.sPlain 1).clipData.getD 1 default) buf
      = ((Audio.Play Ex.sPlain 1).clipData.getD 1 default, buf)) ∧
    (∀ n, Audio.stepClipN (Audio.Play Ex.sPlain 1).sampleData n
        ((Audio.Play Ex.sPlain 1).clipData.getD 1 default)
      = (Audio.Play Ex.sPlain 1).clipData.getD 1 default) :=
  play_on_free_slot_counts_and_silent Ex.sPlain 1 (by decide) (by decide)
    (by decide)

/- ------------------------------------------------------------------ -/
/- C3                                                                 -/
/- ------------------------------------------------------------------ -/

/-- C3, counterexample.  The claim says every sample of the render
callback's output lies in [-1, 1] regardless of volumes.  In `Ex.sLoud` a
single Playing mono clip with volume 2 over a sample of amplitude 1 makes
`Audio::PortAudioCallback` emit 2 on both channels: the `Audio` callback
performs no clamping at all. -/
theorem mixer_output_exceeds_unit_range :
    (Audio.PortAudioCallback Ex.sLoud 1).1 = [(2, 2)] ∧ ¬ ((2 : ℚ) ≤ 1) := by
  constructor
  · simp [Audio.PortAudioCallback, mapAccumL, Audio.renderAClip,
      Audio.ClipData.NextStereo, Audio.ClipData.Next,
      Audio.ClipData.IncrementSampleIndex, Audio.derefSample, Ex.sLoud]
  · norm_num

/-- C3, amended: the clamping described by the claim is implemented only in
the `Juke` variant's callback (`Juke::paCallback` hard-limits each touched
cell after each clip's accumulation); for that callback every sample of the
produced buffer does lie within [-1, 1], for every sample pool, clip set
and buffer size.  The `Audio` callback has no clamp and its output can
exceed the range. -/
theorem juke_mixer_output_clamped (samples : List (Option Juke.AudioSampleData))
    (clips : List (Option Juke.AudioClipData)) (F : Nat) :
    ∀ pr ∈ (Juke.paCallback samples clips F).1,
      -1 ≤ pr.1 ∧ pr.1 ≤ 1 ∧ -1 ≤ pr.2 ∧ pr.2 ≤ 1 := by
  unfold Juke.paCallback
  refine aux_mapAccumL_fst_inv _
    (fun buf : List (ℚ × ℚ) =>
      ∀ pr ∈ buf, -1 ≤ pr.1 ∧ pr.1 ≤ 1 ∧ -1 ≤ pr.2 ∧ pr.2 ≤ 1)
    ?_ clips _ ?_
  · intro buf oc hQ
    match oc with
    | none => exact hQ
    | some c =>
      by_cases hcp : c.paused = true
      · simpa [hcp] using hQ
      · simpa [hcp] using aux_renderClip_clamped samples c buf
  · intro pr hpr
    have : pr = ((0 : ℚ), (0 : ℚ)) := List.eq_of_mem_replicate hpr
    subst this
    norm_num

/-- Witness for `juke_mixer_output_clamped`: one mono clip at pan 0 and
volume 1 produces the frame (707/1000, 707/1000), which the theorem bounds
into [-1, 1]. -/
theorem juke_mixer_output_clamped_witness :
    -1 ≤ (((707 : ℚ) / 1000, (707 : ℚ) / 1000) : ℚ × ℚ).1 ∧
    (((707 : ℚ) / 1000, (707 : ℚ) / 1000) : ℚ × ℚ).1 ≤ 1 ∧
    -1 ≤ (((707 : ℚ) / 1000, (707 : ℚ) / 1000) : ℚ × ℚ).2 ∧
    (((707 : ℚ) / 1000, (707 : ℚ) / 1000) : ℚ × ℚ).2 ≤ 1 :=
  juke_mixer_output_clamped [none, some ⟨[1], 1, false⟩]
    [some ⟨some 1, 0, false, 1, 0, false, false⟩] 1
    ((707 : ℚ) / 1000, (707 : ℚ) / 1000)
    (by
      simp [Juke.paCallback, mapAccumL, Juke.renderClip, Juke.mixFrame,
        Juke.derefSample, Juke.AudioClipData.Next, clampQ]
      norm_num)

/- ------------------------------------------------------------------ -/
/- C4                                                                 -/
/- ------------------------------------------------------------------ -/

/-- C4, counterexample.  The claim says each mixed frame applies
`left = l × (1 − pan) × 0.707`, `right = r × (1 + pan) × 0.707`, so for a
mono source at `pan = -1` the right channel receives ≈ 0.  In `Ex.sPanned`
a mono clip with amplitude 1, volume 1 and `pan = -1` is mixed by
`Audio::PortAudioCallback` into (1, 1): the `Audio` mixer ignores pan
entirely for mono sources (and omits the 0.707 factor for stereo ones), so
the right channel receives 1, not 0. -/
theorem mono_pan_ignored_in_mixer :
    (Audio.PortAudioCallback Ex.sPanned 1).1 = [(1, 1)] ∧ ((1 : ℚ) ≠ 0) := by
  constructor
  · simp [Audio.PortAudioCallback, mapAccumL, Audio.renderAClip,
      Audio.ClipData.NextStereo, Audio.ClipData.Next,
      Audio.ClipData.IncrementSampleIndex, Audio.derefSample, Ex.sPanned]
  · norm_num

/-- C4, amended: the claimed constant-power pan law
(`left += l × (1 − pan) × 0.707`, `right += r × (1 + pan) × 0.707`, mono
sources duplicated to both channels first) is the law of the `Juke`
variant's callback, not of the `Audio` one.  For a `Juke` mono clip of
amplitude `v` (|v| ≤ 1, volume 1): at `pan = -1` the right channel gets
exactly 0, at `pan = +1` the left channel gets exactly 0, and at `pan = 0`
both channels get exactly `0.707 × v` (the 0.707 of the source being the
float literal `0.707f`, i.e. 707/1000 in exact arithmetic). -/
theorem juke_constant_power_pan_law (v : ℚ) (hv : |v| ≤ 1) :
    ((Juke.paCallback [none, some ⟨[v], 1, false⟩]
        [some ⟨some 1, 0, false, 1, -1, false, false⟩] 1).1.getD 0 (0, 0)).2
      = 0 ∧
    ((Juke.paCallback [none, some ⟨[v], 1, false⟩]
        [some ⟨some 1, 0, false, 1, 1, false, false⟩] 1).1.getD 0 (0, 0)).1
      = 0 ∧
    (Juke.paCallback [none, some ⟨[v], 1, false⟩]
        [some ⟨some 1, 0, false, 1, 0, false, false⟩] 1).1
      = [(707 / 1000 * v, 707 / 1000 * v)] := by
  obtain ⟨hv1, hv2⟩ := abs_le.mp hv
  refine ⟨?_, ?_, ?_⟩ <;>
    simp [Juke.paCallback, mapAccumL, Juke.renderClip, Juke.mixFrame,
      Juke.derefSample, Juke.AudioClipData.Next, clampQ] <;>
    split_ifs <;> try linarith

/-- Witness for `juke_constant_power_pan_law` at `v = 1/2`. -/
theorem juke_constant_power_pan_law_witness :
    ((Juke.paCallback [none, some ⟨[(1 : ℚ) / 2], 1, false⟩]
        [some ⟨some 1, 0, false, 1, -1, false, false⟩] 1).1.getD 0 (0, 0)).2
      = 0 ∧
    ((Juke.paCallback [none, some ⟨[(1 : ℚ) / 2], 1, false⟩]
        [some ⟨some 1, 0, false, 1, 1, false, false⟩] 1).1.getD 0 (0, 0)).1
      = 0 ∧
    (Juke.paCallback [none, some ⟨[(1 : ℚ) / 2], 1, false⟩]
        [some ⟨some 1, 0, false, 1, 0, false, false⟩] 1).1
      = [(707 / 1000 * ((1 : ℚ) / 2), 707 / 1000 * ((1 : ℚ) / 2))] :=
  juke_constant_power_pan_law ((1 : ℚ) / 2)
    (by rw [abs_le]; constructor <;> norm_num)

/- ------------------------------------------------------------------ -/
/- C5: single-step and multi-step advance lemmas for a mono clip.     -/
/- ------------------------------------------------------------------ -/

theorem aux_step_play (pool : List Audio.SampleData) (sid N : Nat) (v p : ℚ)
    (hmono : (pool.getD sid default).mono = true)
    (hlen : (pool.getD sid default).length = N) (i l : Nat) (hi : i + 1 < N) :
    Audio.stepClip pool (Audio.mkClip sid v p i l Audio.ClipState.Playing)
      = Audio.mkClip sid v p (i + 1) l Audio.ClipState.Playing := by
  simp [Audio.stepClip, Audio.ClipData.NextStereo, Audio.ClipData.Next,
    Audio.ClipData.IncrementSampleIndex, Audio.derefSample, Audio.mkClip,
    hmono, hlen, -List.getD_eq_getElem?_getD]
  split_ifs <;> first | rfl | omega

theorem aux_step_wrap (pool : List Audio.SampleData) (sid N : Nat) (v p : ℚ)
    (hmono : (pool.getD sid default).mono = true)
    (hlen : (pool.getD sid default).length = N) (i l : Nat) (hi : N ≤ i + 1)
    (hl0 : l ≠ 0) (hls : l ≠ 4294967295) :
    Audio.stepClip pool (Audio.mkClip sid v p i l Audio.ClipState.Playing)
      = Audio.mkClip sid v p 0 (l - 1) Audio.ClipState.Playing := by
  simp [Audio.stepClip, Audio.ClipData.NextStereo, Audio.ClipData.Next,
    Audio.ClipData.IncrementSampleIndex, Audio.derefSample, Audio.mkClip,
    hmono, hlen, hl0, hls, -List.getD_eq_getElem?_getD]
  omega

theorem aux_step_complete (pool : List Audio.SampleData) (sid N : Nat)
    (v p : ℚ) (hmono : (pool.getD sid default).mono = true)
    (hlen : (pool.getD sid default).length = N) (i : Nat) (hi : N ≤ i + 1) :
    Audio.stepClip pool (Audio.mkClip sid v p i 0 Audio.ClipState.Playing)
      = Audio.mkClip sid v p (i + 1) 0 Audio.ClipState.Complete := by
  simp [Audio.stepClip, Audio.ClipData.NextStereo, Audio.ClipData.Next,
    Audio.ClipData.IncrementSampleIndex, Audio.derefSample, Audio.mkClip,
    hmono, hlen, -List.getD_eq_getElem?_getD]
  omega

theorem aux_step_done (pool : List Audio.SampleData) (sid : Nat) (v p : ℚ)
    (hmono : (pool.getD sid default).mono = true) (i l : Nat) :
    Audio.stepClip pool (Audio.mkClip sid v p i l Audio.ClipState.Complete)
      = Audio.mkClip sid v p i l Audio.ClipState.Complete := by
  simp [Audio.stepClip, Audio.ClipData.NextStereo, Audio.ClipData.Next,
    Audio.derefSample, Audio.mkClip, hmono, -List.getD_eq_getElem?_getD]

theorem aux_next_stereo_done (pool : List Audio.SampleData) (sid : Nat)
    (v p : ℚ) (hmono : (pool.getD sid default).mono = true) (i l : Nat) :
    (Audio.ClipData.NextStereo pool
      (Audio.mkClip sid v p i l Audio.ClipState.Complete)).1 = (0, 0) := by
  simp [Audio.ClipData.NextStereo, Audio.ClipData.Next, Audio.derefSample,
    Audio.mkClip, hmono, -List.getD_eq_getElem?_getD]

theorem aux_stepClipN_add (pool : List Audio.SampleData) (a b : Nat)
    (c : Audio.ClipData) :
    Audio.stepClipN pool (a + b) c
      = Audio.stepClipN pool b (Audio.stepClipN pool a c) := by
  induction a generalizing c with
  | zero => rw [Nat.zero_add]; rfl
  | succ a ih =>
    have h1 : a + 1 + b = (a + b) + 1 := by omega
    rw [h1]
    exact ih (Audio.stepClip pool c)

theorem aux_run_within (pool : List Audio.SampleData) (sid N : Nat) (v p : ℚ)
    (hmono : (pool.getD sid default).mono = true)
    (hlen : (pool.getD sid default).length = N) :
    ∀ d i l, i + d < N →
      Audio.stepClipN pool d (Audio.mkClip sid v p i l Audio.ClipState.Playing)
        = Audio.mkClip sid v p (i + d) l Audio.ClipState.Playing := by
  intro d
  induction d with
  | zero => intro i l _; rfl
  | succ d ih =>
    intro i l h
    show Audio.stepClipN pool d
        (Audio.stepClip pool (Audio.mkClip sid v p i l Audio.ClipState.Playing))
      = _
    rw [aux_step_play pool sid N v p hmono hlen i l (by omega)]
    have h2 := ih (i + 1) l (by omega)
    have h3 : i + 1 + d = i + (d + 1) := by omega
    rw [h3] at h2
    exact h2

theorem aux_run_pass (pool : List Audio.SampleData) (sid N : Nat) (v p : ℚ)
    (hmono : (pool.getD sid default).mono = true)
    (hlen : (pool.getD sid default).length = N) (hN : 0 < N) (l : Nat)
    (hl0 : l ≠ 0) (hls : l ≠ 4294967295) :
    Audio.stepClipN pool N (Audio.mkClip sid v p 0 l Audio.ClipState.Playing)
      = Audio.mkClip sid v p 0 (l - 1) Audio.ClipState.Playing := by
  have hsplit : N = (N - 1) + 1 := by omega
  rw [hsplit, aux_stepClipN_add,
    aux_run_within pool sid N v p hmono hlen (N - 1) 0 l (by omega)]
  show Audio.stepClip pool
      (Audio.mkClip sid v p (0 + (N - 1)) l Audio.ClipState.Playing) = _
  rw [aux_step_wrap pool sid N v p hmono hlen (0 + (N - 1)) l (by omega) hl0 hls]

theorem aux_run_loops (pool : List Audio.SampleData) (sid N k : Nat)
    (v p : ℚ) (hmono : (pool.getD sid default).mono = true)
    (hlen : (pool.getD sid default).length = N) (hN : 0 < N)
    (hk : k < 4294967295) :
    ∀ q, q ≤ k →
      Audio.stepClipN pool (q * N)
          (Audio.mkClip sid v p 0 k Audio.ClipState.Playing)
        = Audio.mkClip sid v p 0 (k - q) Audio.ClipState.Playing := by
  intro q
  induction q with
  | zero => intro _; rw [Nat.zero_mul]; rfl
  | succ q ih =>
    intro h
    have h1 : (q + 1) * N = q * N + N := by ring
    rw [h1, aux_stepClipN_add, ih (by omega),
      aux_run_pass pool sid N v p hmono hlen hN (k - q) (by omega) (by omega)]
    have h2 : k - q - 1 = k - (q + 1) := by omega
    rw [h2]

/-- C5 (confirmed).  For a clip bound to a mono sample slot of length `N`
(`N > 0`), starting at cursor 0 in state Playing with a finite loop counter
`k` (not the loop-forever sentinel 4294967295): the clip is still Playing
after every number of rendered frames strictly below `(k+1)*N`, its state
becomes Complete after exactly `(k+1)*N` rendered frames (`k = 0` plays
once and completes after `N` frames; `k = 2` plays the sample three times),
it stays in that completed state for all further frames, and from then on
its per-frame stereo contribution to the mix is exactly (0, 0).  One
rendered frame of a Playing mono clip corresponds to exactly one
`NextStereo` advance in `Audio::PortAudioCallback`. -/
theorem mono_clip_completes_after_loops (pool : List Audio.SampleData)
    (sid N k : Nat) (v p : ℚ) (hN : 0 < N) (hk : k < 4294967295)
    (hmono : (pool.getD sid default).mono = true)
    (hlen : (pool.getD sid default).length = N) :
    (∀ j, j < (k + 1) * N →
      (Audio.stepClipN pool j
        (Audio.mkClip sid v p 0 k Audio.ClipState.Playing)).state
        = Audio.ClipState.Playing) ∧
    Audio.stepClipN pool ((k + 1) * N)
        (Audio.mkClip sid v p 0 k Audio.ClipState.Playing)
      = Audio.mkClip sid v p N 0 Audio.ClipState.Complete ∧
    (∀ m, Audio.stepClipN pool ((k + 1) * N + m)
        (Audio.mkClip sid v p 0 k Audio.ClipState.Playing)
      = Audio.mkClip sid v p N 0 Audio.ClipState.Complete) ∧
    (∀ m, (Audio.ClipData.NextStereo pool
        (Audio.stepClipN pool ((k + 1) * N + m)
          (Audio.mkClip sid v p 0 k Audio.ClipState.Playing))).1 = (0, 0)) := by
  have hdone : Audio.stepClipN pool ((k + 1) * N)
      (Audio.mkClip sid v p 0 k Audio.ClipState.Playing)
      = Audio.mkClip sid v p N 0 Audio.ClipState.Complete := by
    have h1 : (k + 1) * N = k * N + N := by ring
    rw [h1, aux_stepClipN_add,
      aux_run_loops pool sid N k v p hmono hlen hN hk k le_rfl]
    have hkk : k - k = 0 := by omega
    rw [hkk]
    have h2 : N = (N - 1) + 1 := by omega
    rw [h2, aux_stepClipN_add,
      aux_run_within pool sid N v p hmono hlen (N - 1) 0 0 (by omega)]
    show Audio.stepClip pool
        (Audio.mkClip sid v p (0 + (N - 1)) 0 Audio.ClipState.Playing) = _
    rw [aux_step_complete pool sid N v p hmono hlen (0 + (N - 1)) (by omega)]
    have h3 : 0 + (N - 1) + 1 = N := by omega
    rw [h3, ← h2]
  have hafter : ∀ m, Audio.stepClipN pool ((k + 1) * N + m)
      (Audio.mkClip sid v p 0 k Audio.ClipState.Playing)
      = Audio.mkClip sid v p N 0 Audio.ClipState.Complete := by
    intro m
    induction m with
    | zero => exact hdone
    | succ m ih =>
      have h1 : (k + 1) * N + (m + 1) = ((k + 1) * N + m) + 1 := rfl
      rw [h1, aux_stepClipN_add, ih]
      show Audio.stepClip pool
          (Audio.mkClip sid v p N 0 Audio.ClipState.Complete) = _
      exact aux_step_done pool sid v p hmono N 0
  refine ⟨?_, hdone, hafter, ?_⟩
  · intro j hj
    have hr : j % N < N := Nat.mod_lt _ hN
    have hq : j / N ≤ k :=
      Nat.lt_succ_iff.mp ((Nat.div_lt_iff_lt_mul hN).mpr hj)
    have hj2 : (j / N) * N + j % N = j := by
      rw [Nat.mul_comm]
      exact Nat.div_add_mod j N
    rw [← hj2, aux_stepClipN_add,
      aux_run_loops pool sid N k v p hmono hlen hN hk (j / N) hq,
      aux_run_within pool sid N v p hmono hlen (j % N) 0 (k - j / N)
        (by omega)]
    rfl
  · intro m
    rw [hafter m]
    exact aux_next_stereo_done pool sid v p hmono N 0


/-- Witness for `mono_clip_completes_after_loops`: sample slot 1 mono with
2 frames, loop counter 1 — the clip is Playing for frames 0..3, Complete at
frame 4, and silent afterwards. -/
theorem mono_clip_completes_after_loops_witness :
    (∀ j, j < (1 + 1) * 2 →
      (Audio.stepClipN [default, ⟨some [1, 2], 2, true⟩] j
        (Audio.mkClip 1 1 0 0 1 Audio.ClipState.Playing)).state
        = Audio.ClipState.Playing) ∧
    Audio.stepClipN [default, ⟨some [1, 2], 2, true⟩] ((1 + 1) * 2)
        (Audio.mkClip 1 1 0 0 1 Audio.ClipState.Playing)
      = Audio.mkClip 1 1 0 2 0 Audio.ClipState.Complete ∧
    (∀ m, Audio.stepClipN [default, ⟨some [1, 2], 2, true⟩] ((1 + 1) * 2 + m)
        (Audio.mkClip 1 1 0 0 1 Audio.ClipState.Playing)
      = Audio.mkClip 1 1 0 2 0 Audio.ClipState.Complete) ∧
    (∀ m, (Audio.ClipData.NextStereo [default, ⟨some [1, 2], 2, true⟩]
        (Audio.stepClipN [default, ⟨some [1, 2], 2, true⟩] ((1 + 1) * 2 + m)
          (Audio.mkClip 1 1 0 0 1 Audio.ClipState.Playing))).1 = (0, 0)) :=
  mono_clip_completes_after_loops [default, ⟨some [1, 2], 2, true⟩] 1 2 1 1 0
    (by decide) (by decide) (by decide) (by decide)
